import Mathlib

/-
Shallow embedding of the compound-grow-calc repository's core calculation
functions (net-salary calculator and compound-interest calculator), with
machine numbers modelled as exact rationals.
-/

/-- Pay frequency options of the salary form. -/
inductive PayFrequency where
  | monthly
  | biweekly
  | weekly
  | daily
deriving DecidableEq, Repr

/-- Marital status options of the salary form. -/
inductive MaritalStatus where
  | single
  | married_no_income
  | married_with_income
deriving DecidableEq, Repr

/-- Input record of the net-salary calculator (interface SalaryParams). -/
structure SalaryParams where
  grossSalary : ℚ
  payFrequency : PayFrequency
  region : String
  maritalStatus : MaritalStatus
  childrenUnder25 : ℤ
  childrenOver25 : ℤ
  workerDisability : ℚ
  familyDisability : ℚ
deriving DecidableEq, Repr

/-- Output record of the net-salary calculator (interface SalaryResult). -/
structure SalaryResult where
  grossAnnual : ℚ
  grossPeriodic : ℚ
  socialSecurityContribution : ℚ
  employerSocialSecurity : ℚ
  meiWorker : ℚ
  meiEmployer : ℚ
  solidarityQuotaWorker : ℚ
  solidarityQuotaEmployer : ℚ
  irpfRetention : ℚ
  netAnnual : ℚ
  netPeriodic : ℚ
  periodName : String
  periodsPerYear : ℕ
deriving DecidableEq, Repr

/-- One row of the IRPF_BRACKETS table; hi = none encodes the Infinity bound
of the last bracket. -/
structure IRPFBracket where
  lo : ℚ
  hi : Option ℚ
  rate : ℚ
deriving DecidableEq, Repr

/-- The IRPF_BRACKETS constant table. -/
def IRPF_BRACKETS : List IRPFBracket :=
  [⟨0, some 12450, 0.19⟩,
   ⟨12450, some 20200, 0.24⟩,
   ⟨20200, some 35200, 0.30⟩,
   ⟨35200, some 60000, 0.37⟩,
   ⟨60000, some 300000, 0.47⟩,
   ⟨300000, none, 0.47⟩]

/-- Math.min(taxableBase, bracket.max) where bracket.max may be Infinity. -/
def bracketCap (taxableBase : ℚ) : Option ℚ → ℚ
  | some m => min taxableBase m
  | none => taxableBase

/-- The bracket loop of calculateIRPF: for each bracket with
taxableBase > bracket.min, add (min(taxableBase, bracket.max) - bracket.min)
* bracket.rate. -/
def irpfBracketTax (taxableBase : ℚ) : ℚ :=
  IRPF_BRACKETS.foldl
    (fun tax b =>
      if taxableBase > b.lo then tax + (bracketCap taxableBase b.hi - b.lo) * b.rate
      else tax)
    0

/-- The personal and family minimum built up inside calculateIRPF:
base 5550, spouse allowance, the sequential children additions, and the
disability additions. -/
def irpfPersonalMinimum (params : SalaryParams) : ℚ :=
  let pm : ℚ := 5550
  let pm := if params.maritalStatus = MaritalStatus.married_no_income then pm + 3400 else pm
  let totalChildren := params.childrenUnder25 + params.childrenOver25
  let pm := if totalChildren ≥ 1 then pm + 2400 else pm
  let pm := if totalChildren ≥ 2 then pm + 2700 else pm
  let pm := if totalChildren ≥ 3 then pm + 4000 else pm
  let pm := if totalChildren ≥ 4 then pm + ((totalChildren - 3) : ℤ) * 4500 else pm
  let pm := if params.workerDisability ≥ 33 then
      (if params.workerDisability ≥ 65 then pm + 9000 else pm + 3000) else pm
  let pm := if params.familyDisability ≥ 33 then
      (if params.familyDisability ≥ 65 then pm + 9000 else pm + 3000) else pm
  pm

/-- getRegionMultiplier restricted to the numeric outcomes of
multipliers[region] || 1.0: the seven own keys and the undefined-key
default 1.0 (no stored multiplier is 0, so the falsy fallback only fires
on undefined). Lookups that hit the object prototype chain instead of an
own key or undefined are modelled separately by getRegionMultiplierJS. -/
def getRegionMultiplier (region : String) : ℚ :=
  if region = "MD" then 1.0
  else if region = "CT" then 1.05
  else if region = "AN" then 0.95
  else if region = "VC" then 1.02
  else if region = "PV" then 0.90
  else if region = "NV" then 0.88
  else if region = "CN" then 0.92
  else 1.0

/-- The property names a plain object literal inherits from the JS
Object prototype: for these keys multipliers[region] yields a truthy
inherited function or object rather than undefined. -/
def objectPrototypeMembers : List String :=
  ["constructor", "hasOwnProperty", "isPrototypeOf", "propertyIsEnumerable",
   "toLocaleString", "toString", "valueOf", "__proto__",
   "__defineGetter__", "__defineSetter__", "__lookupGetter__", "__lookupSetter__"]

/-- Outcome of the property access multipliers[region]: an own numeric
entry, a truthy member inherited from the prototype chain, or undefined. -/
inductive RegionLookup where
  | ownNumber (q : ℚ)
  | inheritedMember
  | undefinedValue
deriving DecidableEq, Repr

/-- The property access multipliers[region] including the prototype
chain. -/
def multipliersLookup (region : String) : RegionLookup :=
  if region = "MD" then RegionLookup.ownNumber 1.0
  else if region = "CT" then RegionLookup.ownNumber 1.05
  else if region = "AN" then RegionLookup.ownNumber 0.95
  else if region = "VC" then RegionLookup.ownNumber 1.02
  else if region = "PV" then RegionLookup.ownNumber 0.90
  else if region = "NV" then RegionLookup.ownNumber 0.88
  else if region = "CN" then RegionLookup.ownNumber 0.92
  else if region ∈ objectPrototypeMembers then RegionLookup.inheritedMember
  else RegionLookup.undefinedValue

/-- getRegionMultiplier with the prototype chain: multipliers[region] || 1.0
returns each truthy own number as is and defaults undefined to 1.0; a
truthy inherited member is returned unchanged, a non-number that poisons
the later arithmetic to NaN, modelled as none. -/
def getRegionMultiplierJS (region : String) : Option ℚ :=
  match multipliersLookup region with
  | RegionLookup.ownNumber q => some q
  | RegionLookup.inheritedMember => none
  | RegionLookup.undefinedValue => some 1.0

/-- taxableBase = Math.max(0, taxableIncome - personalMinimum) computed in
calculateIRPF, with taxableIncome = grossSalary - socialSecurity. -/
def irpfTaxableBase (grossSalary socialSecurity : ℚ) (params : SalaryParams) : ℚ :=
  max 0 (grossSalary - socialSecurity - irpfPersonalMinimum params)

/-- calculateIRPF: progressive bracket tax on the clamped taxable base,
scaled by the region multiplier. -/
def calculateIRPF (grossSalary socialSecurity : ℚ) (params : SalaryParams) : ℚ :=
  irpfBracketTax (irpfTaxableBase grossSalary socialSecurity params)
    * getRegionMultiplier params.region

/-- calculateIRPF through the prototype-aware lookup; none models the NaN
result of multiplying the bracket tax by an inherited function value. -/
def calculateIRPFJS (grossSalary socialSecurity : ℚ) (params : SalaryParams) : Option ℚ :=
  (getRegionMultiplierJS params.region).map
    (fun m => irpfBracketTax (irpfTaxableBase grossSalary socialSecurity params) * m)

/-- calculateSocialSecurity: worker contribution on the capped base,
rates 4.7% + 1.55% + 0.1%. -/
def calculateSocialSecurity (grossSalary : ℚ) : ℚ :=
  let ssBase := min grossSalary 53760
  let commonContingencies := ssBase * 0.047
  let unemployment := ssBase * 0.0155
  let training := ssBase * 0.001
  commonContingencies + unemployment + training

/-- calculateEmployerSocialSecurity: employer contribution on the capped
base, rates 23.6% + 5.5% + 0.6% + 0.65% + 0.2%. -/
def calculateEmployerSocialSecurity (grossSalary : ℚ) : ℚ :=
  let ssBase := min grossSalary 53760
  let commonContingencies := ssBase * 0.236
  let unemployment := ssBase * 0.055
  let training := ssBase * 0.006
  let workplaceAccidents := ssBase * 0.0065
  let fogasa := ssBase * 0.002
  commonContingencies + unemployment + training + workplaceAccidents + fogasa

/-- Result pair of calculateMEI. -/
structure MEIResult where
  meiEmployer : ℚ
  meiWorker : ℚ
deriving DecidableEq, Repr

/-- calculateMEI: intergenerational equity mechanism on the capped base,
0.67% employer and 0.13% worker. -/
def calculateMEI (grossSalary : ℚ) : MEIResult :=
  let ssBase := min grossSalary 53760
  let meiEmployer := ssBase * 0.0067
  let meiWorker := ssBase * 0.0013
  ⟨meiEmployer, meiWorker⟩

/-- Result pair of calculateSolidarityQuota. -/
structure SolidarityResult where
  solidarityQuotaEmployer : ℚ
  solidarityQuotaWorker : ℚ
deriving DecidableEq, Repr

/-- calculateSolidarityQuota: three marginal brackets on the excess of the
gross salary over the 2025 maximum base 58908, split 83.39% employer and
16.61% worker. -/
def calculateSolidarityQuota (grossSalary : ℚ) : SolidarityResult :=
  let maxBase2025 : ℚ := 58908
  if grossSalary ≤ maxBase2025 then ⟨0, 0⟩
  else
    let excessSalary := grossSalary - maxBase2025
    let firstBracketLimit : ℚ := (4909 * 0.1) * 12
    let totalQuota : ℚ :=
      if excessSalary > 0 then (min excessSalary firstBracketLimit) * 0.0092 else 0
    let secondBracketLimit : ℚ := (4909 * 0.4) * 12
    let totalQuota :=
      if excessSalary > firstBracketLimit then
        totalQuota + (min (excessSalary - firstBracketLimit) secondBracketLimit) * 0.01
      else totalQuota
    let totalQuota :=
      if excessSalary > firstBracketLimit + secondBracketLimit then
        totalQuota + (excessSalary - firstBracketLimit - secondBracketLimit) * 0.0117
      else totalQuota
    ⟨totalQuota * 0.8339, totalQuota * 0.1661⟩

/-- The combined worker + employer solidarity quota. -/
def solidarityTotal (grossSalary : ℚ) : ℚ :=
  (calculateSolidarityQuota grossSalary).solidarityQuotaEmployer
    + (calculateSolidarityQuota grossSalary).solidarityQuotaWorker

/-- getPeriodsPerYear on the pay-frequency enum. -/
def getPeriodsPerYear : PayFrequency → ℕ
  | PayFrequency.monthly => 12
  | PayFrequency.biweekly => 26
  | PayFrequency.weekly => 52
  | PayFrequency.daily => 365

/-- getPeriodName on the pay-frequency enum. -/
def getPeriodName : PayFrequency → String
  | PayFrequency.monthly => "mes"
  | PayFrequency.biweekly => "quincena"
  | PayFrequency.weekly => "semana"
  | PayFrequency.daily => "día"

/-- validateInputs: true exactly when the error mapping built by the form
validation is empty (each disjunct is one error condition of the source). -/
def validateInputs (p : SalaryParams) : Bool :=
  !(decide (p.grossSalary ≤ 0) || decide (p.grossSalary > 1000000)
    || decide (p.childrenUnder25 < 0) || decide (p.childrenOver25 < 0)
    || decide (p.workerDisability < 0) || decide (p.workerDisability > 100)
    || decide (p.familyDisability < 0) || decide (p.familyDisability > 100)
    || decide (p.region = ""))

/-- calculateSalary: validation gate, then the full pipeline; none models
the early return on validation failure. -/
def calculateSalary (params : SalaryParams) : Option SalaryResult :=
  if validateInputs params then
    let grossAnnual := params.grossSalary
    let socialSecurity := calculateSocialSecurity grossAnnual
    let employerSS := calculateEmployerSocialSecurity grossAnnual
    let mei := calculateMEI grossAnnual
    let sq := calculateSolidarityQuota grossAnnual
    let totalWorkerContributions :=
      socialSecurity + mei.meiWorker + sq.solidarityQuotaWorker
    let irpf := calculateIRPF grossAnnual totalWorkerContributions params
    let netAnnual := grossAnnual - totalWorkerContributions - irpf
    let periodsPerYear := getPeriodsPerYear params.payFrequency
    some
      { grossAnnual := grossAnnual
        grossPeriodic := grossAnnual / (periodsPerYear : ℚ)
        socialSecurityContribution := socialSecurity
        employerSocialSecurity := employerSS
        meiWorker := mei.meiWorker
        meiEmployer := mei.meiEmployer
        solidarityQuotaWorker := sq.solidarityQuotaWorker
        solidarityQuotaEmployer := sq.solidarityQuotaEmployer
        irpfRetention := irpf
        netAnnual := netAnnual
        netPeriodic := netAnnual / (periodsPerYear : ℚ)
        periodName := getPeriodName params.payFrequency
        periodsPerYear := periodsPerYear }
  else none

/-- Deposit timing options of the compound-interest form. -/
inductive DepositTiming where
  | beginning
  | ending
deriving DecidableEq, Repr

/-- Input record of the compound-interest calculator
(interface CalculationParams). -/
structure CalculationParams where
  initialBalance : ℚ
  periodicDeposit : ℚ
  frequency : ℕ
  depositTiming : DepositTiming
  annualInterestRate : ℚ
  years : ℕ
deriving DecidableEq, Repr

/-- One element of the yearlyData series. -/
structure YearEntry where
  year : ℕ
  balance : ℚ
  interest : ℚ
  deposits : ℚ
deriving DecidableEq, Repr

/-- Output record of the compound-interest calculator
(interface CalculationResult). -/
structure CalculationResult where
  futureValue : ℚ
  totalDeposits : ℚ
  totalInterest : ℚ
  yearlyData : List YearEntry
deriving DecidableEq, Repr

/-- Body of the year loop of calculateCompoundInterest: the snapshot pushed
into yearlyData for a given year. -/
def yearlySnapshot (p : CalculationParams) (year : ℕ) : YearEntry :=
  let r := p.annualInterestRate / 100
  let n := p.frequency
  let yearlyPrincipal := p.initialBalance * (1 + r / (n : ℚ)) ^ (n * year)
  let yearlyDepositsValue : ℚ :=
    if p.periodicDeposit > 0 ∧ year > 0 then
      if r > 0 then
        let v := p.periodicDeposit * ((1 + r / (n : ℚ)) ^ (n * year) - 1) / (r / (n : ℚ))
        if p.depositTiming = DepositTiming.beginning then v * (1 + r / (n : ℚ)) else v
      else p.periodicDeposit * (n : ℚ) * (year : ℚ)
    else 0
  let balance := yearlyPrincipal + yearlyDepositsValue
  let depositsToDate := p.initialBalance + p.periodicDeposit * (n : ℚ) * (year : ℚ)
  { year := year
    balance := balance
    interest := balance - depositsToDate
    deposits := depositsToDate }

/-- calculateCompoundInterest: future value of the principal and of the
periodic deposits (with the annuity-due adjustment and the zero-rate
branch), the totals, and the per-year series for year = 0..years. -/
def calculateCompoundInterest (p : CalculationParams) : CalculationResult :=
  let r := p.annualInterestRate / 100
  let n := p.frequency
  let t := p.years
  let fvPrincipal := p.initialBalance * (1 + r / (n : ℚ)) ^ (n * t)
  let fvDeposits : ℚ :=
    if p.periodicDeposit > 0 ∧ r > 0 then
      let v := p.periodicDeposit * ((1 + r / (n : ℚ)) ^ (n * t) - 1) / (r / (n : ℚ))
      if p.depositTiming = DepositTiming.beginning then v * (1 + r / (n : ℚ)) else v
    else if p.periodicDeposit > 0 then
      p.periodicDeposit * (n : ℚ) * (t : ℚ)
    else 0
  let futureValue := fvPrincipal + fvDeposits
  let totalDeposits := p.initialBalance + p.periodicDeposit * (n : ℚ) * (t : ℚ)
  let totalInterest := futureValue - totalDeposits
  { futureValue := futureValue
    totalDeposits := totalDeposits
    totalInterest := totalInterest
    yearlyData := (List.range (t + 1)).map (yearlySnapshot p) }

/-- The children allowance as a function of the total child count, written
as the mutually-exclusive-tier table that the sequential additions of
calculateIRPF actually realise (tiers accumulate: 1 child 2400, 2 children
2400+2700, 3 children 2400+2700+4000, beyond 3 a further 4500 each). -/
def childAllowanceTier (k : ℤ) : ℚ :=
  if 4 ≤ k then 9100 + ((k - 3 : ℤ) : ℚ) * 4500
  else if k = 3 then 9100
  else if k = 2 then 5100
  else if k = 1 then 2400
  else 0

/-- Baseline single filer used for concrete checks. -/
def baselineParams : SalaryParams :=
  { grossSalary := 35000
    payFrequency := PayFrequency.monthly
    region := "MD"
    maritalStatus := MaritalStatus.single
    childrenUnder25 := 0
    childrenOver25 := 0
    workerDisability := 0
    familyDisability := 0 }

/-- C5: for every input that passes validation, calculateSalary produces a
result whose net annual plus the four worker-side deductions equals the
gross annual salary exactly. -/
theorem C5_net_plus_deductions (p : SalaryParams) (h : validateInputs p = true) :
    ∃ r : SalaryResult, calculateSalary p = some r ∧
      r.netAnnual + (r.socialSecurityContribution + r.meiWorker
        + r.solidarityQuotaWorker + r.irpfRetention) = r.grossAnnual := by
  refine ⟨_, by rw [calculateSalary, if_pos h], ?_⟩
  simp only
  ring

/-- Witness for C5 at the baseline single filer on 35000 gross. -/
theorem C5_net_plus_deductions_witness :
    validateInputs baselineParams = true ∧
      ∃ r : SalaryResult, calculateSalary baselineParams = some r ∧
        r.netAnnual + (r.socialSecurityContribution + r.meiWorker
          + r.solidarityQuotaWorker + r.irpfRetention) = r.grossAnnual :=
  ⟨by decide, C5_net_plus_deductions baselineParams (by decide)⟩

/-- Zero-rate example input used as concrete witness. -/
def zeroRateParams : CalculationParams :=
  { initialBalance := 100
    periodicDeposit := 10
    frequency := 12
    depositTiming := DepositTiming.ending
    annualInterestRate := 0
    years := 2 }

/-- C6: with a zero annual interest rate the future value degenerates to
initialBalance + periodicDeposit × frequency × years, exactly. -/
theorem C6_zero_rate_future_value (p : CalculationParams)
    (h0 : p.annualInterestRate = 0) (hb : 0 ≤ p.initialBalance)
    (hd : 0 ≤ p.periodicDeposit) (hy : 1 ≤ p.years) :
    (calculateCompoundInterest p).futureValue =
      p.initialBalance + p.periodicDeposit * (p.frequency : ℚ) * (p.years : ℚ) := by
  simp only [calculateCompoundInterest, h0]
  norm_num
  by_cases hd0 : 0 < p.periodicDeposit
  · simp [hd0]
  · have hz : p.periodicDeposit = 0 := le_antisymm (not_lt.mp hd0) hd
    simp [hd0, hz]

/-- Witness for C6: 100 initial, 10 monthly for 2 years at 0% gives 340. -/
theorem C6_zero_rate_future_value_witness :
    (calculateCompoundInterest zeroRateParams).futureValue =
      zeroRateParams.initialBalance
        + zeroRateParams.periodicDeposit * (zeroRateParams.frequency : ℚ)
          * (zeroRateParams.years : ℚ) :=
  C6_zero_rate_future_value zeroRateParams (by norm_num [zeroRateParams])
    (by norm_num [zeroRateParams]) (by norm_num [zeroRateParams])
    (by norm_num [zeroRateParams])

/-- C4: the last entry of the per-year series carries year = years and
reproduces futureValue, totalDeposits and totalInterest exactly. -/
theorem C4_series_reconciles_with_totals (p : CalculationParams)
    (hb : 0 ≤ p.initialBalance) (hd : 0 ≤ p.periodicDeposit)
    (hr : 0 ≤ p.annualInterestRate) (hy : 1 ≤ p.years) :
    ∃ e : YearEntry,
      (calculateCompoundInterest p).yearlyData.getLast? = some e ∧
      e.year = p.years ∧
      e.balance = (calculateCompoundInterest p).futureValue ∧
      e.deposits = (calculateCompoundInterest p).totalDeposits ∧
      e.interest = (calculateCompoundInterest p).totalInterest := by
  have hlast : (calculateCompoundInterest p).yearlyData.getLast? =
      some (yearlySnapshot p p.years) := by
    simp only [calculateCompoundInterest, List.range_succ, List.map_append, List.map_cons,
      List.map_nil, List.getLast?_concat]
  have hyr : p.years > 0 := hy
  have hbal : (yearlySnapshot p p.years).balance = (calculateCompoundInterest p).futureValue := by
    simp only [yearlySnapshot, calculateCompoundInterest]
    by_cases hd0 : 0 < p.periodicDeposit
    · by_cases hr0 : 0 < p.annualInterestRate / 100
      · simp [hd0, hr0, hyr]
      · simp [hd0, hr0, hyr]
    · simp [hd0]
  have hdep : (yearlySnapshot p p.years).deposits = (calculateCompoundInterest p).totalDeposits := by
    simp only [yearlySnapshot, calculateCompoundInterest]
  refine ⟨yearlySnapshot p p.years, hlast, rfl, hbal, hdep, ?_⟩
  have h1 : (yearlySnapshot p p.years).interest =
      (yearlySnapshot p p.years).balance - (yearlySnapshot p p.years).deposits := rfl
  have h2 : (calculateCompoundInterest p).totalInterest =
      (calculateCompoundInterest p).futureValue - (calculateCompoundInterest p).totalDeposits := rfl
  rw [h1, h2, hbal, hdep]

/-- Witness for C4 at the default form input: 10000 initial, 500 monthly,
7% for 10 years with end-of-period deposits. -/
theorem C4_series_reconciles_with_totals_witness :
    ∃ e : YearEntry,
      (calculateCompoundInterest
        { initialBalance := 10000, periodicDeposit := 500, frequency := 12,
          depositTiming := DepositTiming.ending, annualInterestRate := 7,
          years := 10 }).yearlyData.getLast? = some e ∧
      e.year = 10 ∧
      e.balance = (calculateCompoundInterest
        { initialBalance := 10000, periodicDeposit := 500, frequency := 12,
          depositTiming := DepositTiming.ending, annualInterestRate := 7,
          years := 10 }).futureValue ∧
      e.deposits = (calculateCompoundInterest
        { initialBalance := 10000, periodicDeposit := 500, frequency := 12,
          depositTiming := DepositTiming.ending, annualInterestRate := 7,
          years := 10 }).totalDeposits ∧
      e.interest = (calculateCompoundInterest
        { initialBalance := 10000, periodicDeposit := 500, frequency := 12,
          depositTiming := DepositTiming.ending, annualInterestRate := 7,
          years := 10 }).totalInterest :=
  C4_series_reconciles_with_totals _ (by norm_num) (by norm_num) (by norm_num) (by norm_num)

/-- The worker+employer solidarity quota in closed form above the cap. -/
lemma solidarityTotal_eq_quota (g : ℚ) (h : ¬ g ≤ 58908) :
    solidarityTotal g =
      (min (g - 58908) 5890.8) * 0.0092
      + (if g - 58908 > 5890.8 then (min (g - 58908 - 5890.8) 23563.2) * 0.01 else 0)
      + (if g - 58908 > 5890.8 + 23563.2 then (g - 58908 - 5890.8 - 23563.2) * 0.0117 else 0) := by
  have h0 : (0:ℚ) < g - 58908 := by linarith [not_le.mp h]
  simp only [solidarityTotal, calculateSolidarityQuota, if_neg h, if_pos h0]
  norm_num
  split_ifs <;> ring

/-- The second solidarity bracket contributes a non-negative amount. -/
lemma secondTerm_nonneg (e : ℚ) :
    (0:ℚ) ≤ if e > 5890.8 then (min (e - 5890.8) 23563.2) * 0.01 else 0 := by
  split_ifs with h
  · have : (0:ℚ) < min (e - 5890.8) 23563.2 := lt_min (by linarith) (by norm_num)
    positivity
  · exact le_refl 0

/-- The third solidarity bracket contributes a non-negative amount. -/
lemma thirdTerm_nonneg (e : ℚ) :
    (0:ℚ) ≤ if e > 5890.8 + 23563.2 then (e - 5890.8 - 23563.2) * 0.0117 else 0 := by
  split_ifs with h
  · have : (0:ℚ) < e - 5890.8 - 23563.2 := by linarith
    positivity
  · exact le_refl 0

/-- The total solidarity quota is strictly increasing past the 58908 cap. -/
lemma solidarityTotal_strict_mono (g1 g2 : ℚ) (h1 : 58908 ≤ g1) (h12 : g1 < g2) :
    solidarityTotal g1 < solidarityTotal g2 := by
  have hg2 : ¬ g2 ≤ 58908 := by linarith
  rw [solidarityTotal_eq_quota g2 hg2]
  have ht2 := secondTerm_nonneg (g2 - 58908)
  have ht3 := thirdTerm_nonneg (g2 - 58908)
  by_cases hc : g1 ≤ 58908
  · have hz : solidarityTotal g1 = 0 := by
      simp [solidarityTotal, calculateSolidarityQuota, if_pos hc]
    rw [hz]
    have hmin : (0:ℚ) < min (g2 - 58908) 5890.8 := lt_min (by linarith) (by norm_num)
    nlinarith [hmin]
  · rw [solidarityTotal_eq_quota g1 hc]
    have he1 : (0:ℚ) < g1 - 58908 := by linarith [not_le.mp hc]
    rcases lt_or_le (g1 - 58908) 5890.8 with hA | hBC
    · have hT1 : min (g1 - 58908) (5890.8:ℚ) = g1 - 58908 := min_eq_left (le_of_lt hA)
      have h2f : ¬ (g1 - 58908 > (5890.8:ℚ)) := by linarith
      have h3f : ¬ (g1 - 58908 > (5890.8:ℚ) + 23563.2) := by linarith
      rw [hT1, if_neg h2f, if_neg h3f]
      have hlt : g1 - 58908 < min (g2 - 58908) 5890.8 := lt_min (by linarith) hA
      nlinarith [hlt]
    · rcases lt_or_le (g1 - 58908) (5890.8 + 23563.2) with hB | hC
      · have hmin1 : min (g1 - 58908) (5890.8:ℚ) = 5890.8 := min_eq_right hBC
        have hmin2 : min (g2 - 58908) (5890.8:ℚ) = 5890.8 := min_eq_right (by linarith)
        have h2t : g2 - 58908 > (5890.8:ℚ) := by linarith
        have h3f1 : ¬ (g1 - 58908 > (5890.8:ℚ) + 23563.2) := by linarith
        rw [hmin1, hmin2, if_pos h2t, if_neg h3f1]
        have hT2e2 : g1 - 58908 - 5890.8 < min (g2 - 58908 - 5890.8) 23563.2 :=
          lt_min (by linarith) (by linarith)
        have hT2e1 : (if g1 - 58908 > (5890.8:ℚ) then
              (min (g1 - 58908 - 5890.8) 23563.2) * 0.01 else 0)
            ≤ (g1 - 58908 - 5890.8) * 0.01 := by
          split_ifs with h
          · have hml : min (g1 - 58908 - 5890.8) (23563.2:ℚ) ≤ g1 - 58908 - 5890.8 :=
              min_le_left _ _
            linarith
          · linarith
        nlinarith [hT2e2, hT2e1]
      · have hmin1 : min (g1 - 58908) (5890.8:ℚ) = 5890.8 := min_eq_right (by linarith)
        have hmin2 : min (g2 - 58908) (5890.8:ℚ) = 5890.8 := min_eq_right (by linarith)
        have h2t1 : g1 - 58908 > (5890.8:ℚ) := by linarith
        have h2t2 : g2 - 58908 > (5890.8:ℚ) := by linarith
        have h3t2 : g2 - 58908 > (5890.8:ℚ) + 23563.2 := by linarith
        have hmin3 : min (g1 - 58908 - 5890.8) (23563.2:ℚ) = 23563.2 :=
          min_eq_right (by linarith)
        have hmin4 : min (g2 - 58908 - 5890.8) (23563.2:ℚ) = 23563.2 :=
          min_eq_right (by linarith)
        rw [hmin1, hmin2, if_pos h2t1, if_pos h2t2, if_pos h3t2, hmin3, hmin4]
        have hT3e1 : (if g1 - 58908 > (5890.8:ℚ) + 23563.2 then
              (g1 - 58908 - 5890.8 - 23563.2) * 0.0117 else 0)
            ≤ (g1 - 58908 - 5890.8 - 23563.2) * 0.0117 := by
          split_ifs with h
          · linarith
          · nlinarith [hC]
        linarith

/-- C3: the solidarity quota is 0 up to 58908 of gross salary, strictly
increasing beyond it, and at gross salary 58908 + 5890.80 the total quota
is exactly 5890.80 × 0.0092, split 83.39% employer and 16.61% worker. -/
theorem C3_solidarity_quota_brackets :
    (∀ g : ℚ, g ≤ 58908 →
      (calculateSolidarityQuota g).solidarityQuotaWorker = 0 ∧
      (calculateSolidarityQuota g).solidarityQuotaEmployer = 0) ∧
    (∀ g1 g2 : ℚ, 58908 ≤ g1 → g1 < g2 → solidarityTotal g1 < solidarityTotal g2) ∧
    solidarityTotal (58908 + 5890.80) = 5890.80 * 0.0092 ∧
    (calculateSolidarityQuota (58908 + 5890.80)).solidarityQuotaEmployer
      = (5890.80 * 0.0092) * 0.8339 ∧
    (calculateSolidarityQuota (58908 + 5890.80)).solidarityQuotaWorker
      = (5890.80 * 0.0092) * 0.1661 := by
  refine ⟨?_, solidarityTotal_strict_mono, ?_, ?_, ?_⟩
  · intro g hg
    constructor <;> simp [calculateSolidarityQuota, if_pos hg]
  · norm_num [solidarityTotal, calculateSolidarityQuota]
  · norm_num [calculateSolidarityQuota]
  · norm_num [calculateSolidarityQuota]

/-- Witness for C3 at gross salaries 50000 (below the cap) and the pair
58908 < 60000 (strict growth past the cap). -/
theorem C3_solidarity_quota_brackets_witness :
    ((50000:ℚ) ≤ 58908 ∧ (calculateSolidarityQuota 50000).solidarityQuotaWorker = 0) ∧
      ((58908:ℚ) ≤ 58908 ∧ (58908:ℚ) < 60000 ∧
        solidarityTotal 58908 < solidarityTotal 60000) :=
  ⟨⟨by norm_num, (C3_solidarity_quota_brackets.1 50000 (by norm_num)).1⟩,
    ⟨by norm_num, by norm_num,
      C3_solidarity_quota_brackets.2.1 58908 60000 (by norm_num) (by norm_num)⟩⟩

/-- C1 as stated predicts a total child allowance of 2700 for exactly two
children, i.e. a personal minimum of 5550 + 2700 for a single filer with
no disabilities; the code instead adds 2400 + 2700 = 5100, giving 10650. -/
theorem C1_two_children_counterexample :
    irpfPersonalMinimum { baselineParams with childrenUnder25 := 2 } = 10650 ∧
      irpfPersonalMinimum { baselineParams with childrenUnder25 := 2 } ≠ 5550 + 2700 := by
  constructor
  · simp +decide only [irpfPersonalMinimum, baselineParams]
    norm_num
  · simp +decide only [irpfPersonalMinimum, baselineParams]
    norm_num

/-- C1 amended: the child thresholds of calculateIRPF are cumulative, not
mutually exclusive: relative to the zero-children personal minimum,
1 child adds 2400, 2 children add 5100, 3 children add 9100, and k ≥ 4
children add 9100 + 4500 × (k − 3). -/
theorem C1_children_allowance_cumulative (p : SalaryParams) :
    irpfPersonalMinimum p =
      irpfPersonalMinimum { p with childrenUnder25 := 0, childrenOver25 := 0 }
        + childAllowanceTier (p.childrenUnder25 + p.childrenOver25) := by
  rcases p with ⟨gs, pf, rg, ms, cu, co, wd, fd⟩
  simp only [irpfPersonalMinimum, childAllowanceTier]
  norm_num
  by_cases h4 : 4 ≤ cu + co
  · have h1 : cu + co ≥ 1 := by omega
    have h2 : cu + co ≥ 2 := by omega
    have h3 : cu + co ≥ 3 := by omega
    simp only [ge_iff_le, h1, h2, h3, h4, if_true, ite_true]
    split_ifs <;> push_cast <;> ring
  · by_cases h3 : cu + co = 3
    · simp only [h3]
      norm_num <;> (split_ifs <;> push_cast <;> ring)
    · by_cases h2 : cu + co = 2
      · simp only [h2]
        norm_num <;> (split_ifs <;> push_cast <;> ring)
      · by_cases h1 : cu + co = 1
        · simp only [h1]
          norm_num <;> (split_ifs <;> push_cast <;> ring)
        · have hn1 : ¬ (cu + co ≥ 1) := by omega
          have hn2 : ¬ (cu + co ≥ 2) := by omega
          have hn3 : ¬ (cu + co ≥ 3) := by omega
          simp only [ge_iff_le, hn1, hn2, hn3, h4, if_false, ite_false, if_neg]
          norm_num [hn1, hn2, hn3, h4, h3, h2, h1] <;> (split_ifs <;> push_cast <;> ring)

/-- C2 as stated fails: a negative gross salary makes the capped base
negative and calculateSocialSecurity returns a negative amount, not 0. -/
theorem C2_negative_gross_counterexample :
    calculateSocialSecurity (-1000) ≠ 0 := by
  norm_num [calculateSocialSecurity]

/-- C2 amended: at grossAnnual = 0 all four contribution functions return 0,
and calculateSolidarityQuota returns 0 for every grossAnnual ≤ 0 (indeed
for every grossAnnual ≤ 58908); for strictly negative grossAnnual the other
three functions scale linearly and return negative amounts instead of 0. -/
theorem C2_zero_gross_contributions :
    (calculateSocialSecurity 0 = 0 ∧ calculateEmployerSocialSecurity 0 = 0 ∧
      (calculateMEI 0).meiWorker = 0 ∧ (calculateMEI 0).meiEmployer = 0 ∧
      (calculateSolidarityQuota 0).solidarityQuotaWorker = 0 ∧
      (calculateSolidarityQuota 0).solidarityQuotaEmployer = 0) ∧
    ∀ g : ℚ, g ≤ 0 →
      (calculateSolidarityQuota g).solidarityQuotaWorker = 0 ∧
      (calculateSolidarityQuota g).solidarityQuotaEmployer = 0 := by
  constructor
  · refine ⟨by norm_num [calculateSocialSecurity], by norm_num [calculateEmployerSocialSecurity],
      by norm_num [calculateMEI], by norm_num [calculateMEI], ?_, ?_⟩ <;>
      norm_num [calculateSolidarityQuota]
  · intro g hg
    have h : g ≤ 58908 := by linarith
    constructor <;> simp [calculateSolidarityQuota, if_pos h]

/-- Witness for the amended C2 at the concrete gross salary -1000. -/
theorem C2_zero_gross_contributions_witness :
    (-1000 : ℚ) ≤ 0 ∧ (calculateSolidarityQuota (-1000)).solidarityQuotaWorker = 0 :=
  ⟨by norm_num, (C2_zero_gross_contributions.2 (-1000) (by norm_num)).1⟩

/-- C7: once the gross salary reaches the 2024 cap 53760, the worker
social-security contribution is the constant 53760 × 0.0635. -/
theorem C7_contribution_base_clamped (g : ℚ) (h : 53760 ≤ g) :
    calculateSocialSecurity g = 53760 * 0.0635 := by
  simp only [calculateSocialSecurity, min_eq_right h]
  norm_num

/-- Witness for C7 at gross salary 60000. -/
theorem C7_contribution_base_clamped_witness :
    calculateSocialSecurity 60000 = 53760 * 0.0635 :=
  C7_contribution_base_clamped 60000 (by norm_num)

/-- C9: calculateIRPF depends on the two children fields only through their
sum; any split of an equal total yields the identical withholding. -/
theorem C9_children_split_irrelevant (g ss : ℚ) (p : SalaryParams) (u1 o1 u2 o2 : ℤ)
    (h : u1 + o1 = u2 + o2) :
    calculateIRPF g ss { p with childrenUnder25 := u1, childrenOver25 := o1 } =
      calculateIRPF g ss { p with childrenUnder25 := u2, childrenOver25 := o2 } := by
  rcases p with ⟨gs, pf, rg, ms, cu, co, wd, fd⟩
  simp only [calculateIRPF, irpfTaxableBase, irpfPersonalMinimum, h]

/-- Witness for C9: two under-25 children versus one child in each field. -/
theorem C9_children_split_irrelevant_witness :
    calculateIRPF 30000 2000 { baselineParams with childrenUnder25 := 2, childrenOver25 := 0 } =
      calculateIRPF 30000 2000 { baselineParams with childrenUnder25 := 1, childrenOver25 := 1 } :=
  C9_children_split_irrelevant 30000 2000 baselineParams 2 0 1 1 (by norm_num)

/-- C10 as stated fails at the unknown region string toString: the
property access hits the truthy toString function inherited from the
object prototype, so the multiplier is not 1.0 and calculateIRPF returns
NaN (modelled none) rather than the Madrid result. -/
theorem C10_prototype_member_counterexample :
    getRegionMultiplierJS "toString" ≠ some 1 ∧
      calculateIRPFJS 30000 2000 { baselineParams with region := "toString" } = none := by
  constructor
  · decide
  · simp [calculateIRPFJS, getRegionMultiplierJS, multipliersLookup, objectPrototypeMembers,
      baselineParams]

/-- C10 amended: a region string that is none of the seven keyed codes and
not an inherited object-prototype property name gets multiplier 1.0, and
hence exactly the Madrid IRPF result; this covers the twelve other valid
region codes. -/
theorem C10_nonprototype_region_default (g ss : ℚ) (p : SalaryParams)
    (h1 : p.region ≠ "MD") (h2 : p.region ≠ "CT") (h3 : p.region ≠ "AN")
    (h4 : p.region ≠ "VC") (h5 : p.region ≠ "PV") (h6 : p.region ≠ "NV")
    (h7 : p.region ≠ "CN") (h8 : p.region ∉ objectPrototypeMembers) :
    getRegionMultiplierJS p.region = some 1 ∧
      calculateIRPFJS g ss p = calculateIRPFJS g ss { p with region := "MD" } := by
  have hm : getRegionMultiplierJS p.region = some 1 := by
    simp only [getRegionMultiplierJS, multipliersLookup, if_neg h1, if_neg h2, if_neg h3,
      if_neg h4, if_neg h5, if_neg h6, if_neg h7, if_neg h8]
    norm_num
  refine ⟨hm, ?_⟩
  rcases p with ⟨gs, pf, rg, ms, cu, co, wd, fd⟩
  simp only [calculateIRPFJS, irpfTaxableBase, irpfPersonalMinimum] at *
  rw [hm]
  simp [getRegionMultiplierJS, multipliersLookup]
  norm_num

/-- Each step of the bracket loop keeps the accumulated tax non-negative,
as long as every bracket has a non-negative rate and an upper bound at or
above its lower bound. -/
lemma bracketStep_nonneg (tb : ℚ) (l : List IRPFBracket) :
    ∀ acc : ℚ, 0 ≤ acc →
      (∀ b ∈ l, 0 ≤ b.rate ∧ ∀ m, b.hi = some m → b.lo ≤ m) →
      0 ≤ l.foldl
        (fun tax b =>
          if tb > b.lo then tax + (bracketCap tb b.hi - b.lo) * b.rate else tax)
        acc := by
  induction l with
  | nil => intro acc hacc _; simpa using hacc
  | cons b l ih =>
    intro acc hacc hl
    have hb := hl b (List.mem_cons_self b l)
    have hl' : ∀ x ∈ l, 0 ≤ x.rate ∧ ∀ m, x.hi = some m → x.lo ≤ m :=
      fun x hx => hl x (List.mem_cons_of_mem b hx)
    simp only [List.foldl_cons]
    apply ih
    · split_ifs with hlt
      · have hcap : b.lo ≤ bracketCap tb b.hi := by
          cases hhi : b.hi with
          | none => simp [bracketCap]; linarith
          | some m =>
            have := hb.2 m hhi
            simp only [bracketCap, le_min_iff]
            exact ⟨le_of_lt hlt, this⟩
        have : 0 ≤ (bracketCap tb b.hi - b.lo) * b.rate :=
          mul_nonneg (by linarith) hb.1
        linarith
      · exact hacc
    · exact hl'

/-- The bracket tax of calculateIRPF is never negative. -/
lemma irpfBracketTax_nonneg (tb : ℚ) : 0 ≤ irpfBracketTax tb := by
  apply bracketStep_nonneg tb IRPF_BRACKETS 0 le_rfl
  intro b hb
  simp only [IRPF_BRACKETS, List.mem_cons, List.not_mem_nil, or_false] at hb
  rcases hb with h | h | h | h | h | h <;> subst h <;>
    refine ⟨by norm_num, ?_⟩ <;> intro m hm <;>
    simp_all <;> norm_num [← hm]

/-- Every region multiplier in the lookup (and the default) is positive. -/
lemma getRegionMultiplier_pos (r : String) : 0 < getRegionMultiplier r := by
  simp only [getRegionMultiplier]
  split_ifs <;> norm_num

/-- A zero taxable base pays zero bracket tax. -/
lemma irpfBracketTax_zero : irpfBracketTax 0 = 0 := by
  norm_num [irpfBracketTax, IRPF_BRACKETS, bracketCap]

/-- C8: the clamped taxable base is never negative, the withholding is
exactly 0 whenever taxable income is at most the personal minimum, and the
withholding is never negative since the region multipliers are positive. -/
theorem C8_taxable_base_clamped (g ss : ℚ) (p : SalaryParams) :
    0 ≤ irpfTaxableBase g ss p ∧
      (g - ss ≤ irpfPersonalMinimum p → calculateIRPF g ss p = 0) ∧
      0 ≤ calculateIRPF g ss p := by
  refine ⟨le_max_left 0 _, ?_, ?_⟩
  · intro h
    have htb : irpfTaxableBase g ss p = 0 := by
      simp only [irpfTaxableBase]
      rw [max_eq_left]
      linarith
    rw [calculateIRPF, htb, irpfBracketTax_zero, zero_mul]
  · exact mul_nonneg (irpfBracketTax_nonneg _) (le_of_lt (getRegionMultiplier_pos _))

/-- Witness for C8: taxable income 5000 is below the base personal minimum
5550, so the withholding is zero. -/
theorem C8_taxable_base_clamped_witness :
    (5000 : ℚ) - 0 ≤ irpfPersonalMinimum baselineParams ∧
      calculateIRPF 5000 0 baselineParams = 0 := by
  have h : (5000 : ℚ) - 0 ≤ irpfPersonalMinimum baselineParams := by
    simp +decide only [irpfPersonalMinimum, baselineParams]
    norm_num
  exact ⟨h, (C8_taxable_base_clamped 5000 0 baselineParams).2.1 h⟩

/-- Witness for the amended C10 at the valid region code AR (Aragón). -/
theorem C10_nonprototype_region_default_witness :
    getRegionMultiplierJS (SalaryParams.region { baselineParams with region := "AR" }) = some 1 ∧
      calculateIRPFJS 30000 2000 { baselineParams with region := "AR" } =
        calculateIRPFJS 30000 2000
          { { baselineParams with region := "AR" } with region := "MD" } :=
  C10_nonprototype_region_default 30000 2000 { baselineParams with region := "AR" }
    (by decide) (by decide) (by decide) (by decide) (by decide) (by decide) (by decide)
    (by decide)
